import Mathlib

/-!
Shallow embedding of the cangling-agent repository (Go) for specification
verification.  Go strings are modelled as `List Char`; fallible operations
return `Option`/`Except`; external effects (subprocess launches, file writes,
HTTP posts) are modelled as explicit data returned alongside the result.
-/

namespace Cangling

/-- Character list of a string literal; the model represents Go strings as `List Char`. -/
def chars (s : String) : List Char := s.data

/-- Model of Go `unicode.IsSpace` restricted to the ASCII whitespace that
`strings.TrimSpace` trims on the byte strings the agent handles. -/
def isSpaceGo (c : Char) : Bool :=
  c == ' ' || c == '\t' || c == '\n' || c == '\r' || c == '\x0b' || c == '\x0c'

/-- Model of Go `strings.TrimSpace`. -/
def trimSpace (xs : List Char) : List Char :=
  ((xs.dropWhile isSpaceGo).reverse.dropWhile isSpaceGo).reverse

/-- Boolean prefix test on character lists (model of `bytes`/`strings` prefix search). -/
def isPrefixB : List Char → List Char → Bool
  | [], _ => true
  | _ :: _, [] => false
  | a :: as, b :: bs => a == b && isPrefixB as bs

/-- Boolean substring test (model of `bytes.Contains` / `strings.Contains`). -/
def containsSub (needle : List Char) : List Char → Bool
  | [] => isPrefixB needle []
  | b :: bs => isPrefixB needle (b :: bs) || containsSub needle bs

/-- Decimal digit character for a value below ten. -/
def digitChar (k : Nat) : Char := Char.ofNat (48 + k)

/-- Decimal digits of a natural number, most significant first; the fuel
argument bounds the number of digits (structural recursion on fuel). -/
def natDigitsAux : Nat → Nat → List Char
  | 0, _ => []
  | fuel + 1, n => if n < 10 then [digitChar n] else natDigitsAux fuel (n / 10) ++ [digitChar (n % 10)]

/-- Decimal representation of a natural number (20 digits of fuel covers all
64-bit values the agent formats). -/
def natDigits (n : Nat) : List Char := natDigitsAux 20 n

/-- Model of Go `strconv.Itoa` / `fmt.Sprintf("%d", ...)` on integers. -/
def intRepr (i : Int) : List Char :=
  if i < 0 then '-' :: natDigits i.natAbs else natDigits i.natAbs

/-- Model of Go `strings.Join` with a separator. -/
def joinSep (sep : List Char) : List (List Char) → List Char
  | [] => []
  | [x] => x
  | x :: y :: xs => x ++ sep ++ joinSep sep (y :: xs)

/-- Model of the repeated `args = append(args, flag, value)` loop in `StartTask`:
one flag/value pair per entry, in input order. -/
def appendFlagged (flag : List Char) : List (List Char) → List (List Char)
  | [] => []
  | x :: xs => flag :: x :: appendFlagged flag xs

/-! ## gRPC task controller (src/agent/AgentServer.go) -/

/-- Error kinds of the gRPC status codes used by the task controller. -/
inductive GrpcError where
  | invalidArgument (msg : List Char)
  | internal (msg : List Char)
  /-- Raw error returned when an initial `stream.Send` fails in `StreamLogs`. -/
  | sendError
  deriving DecidableEq

/-- Model of the protobuf `StartTaskRequest`; absent fields are Go zero values. -/
structure StartTaskRequest where
  id : List Char := []
  name : List Char := []
  image : List Char := []
  envs : List (List Char) := []
  volumes : List (List Char) := []
  memoryMb : Int := 0
  gpus : List Int := []

/-- Outcome of running one external `docker` subprocess: whether `cmd.Run`
returned nil, the captured stdout/stderr, and `err.Error()` text on failure. -/
structure ExecOutcome where
  exitOk : Bool
  stdout : List Char := []
  stderr : List Char := []
  errText : List Char := []

/-- One subprocess launch: program and argument vector. -/
structure Invocation where
  prog : List Char
  args : List (List Char)
  deriving DecidableEq

structure StartTaskResponse where
  containerId : List Char
  message : List Char
  deriving DecidableEq

structure StopTaskResponse where
  message : List Char
  deriving DecidableEq

/-- Argument vector built by `StartTask` (src/agent/AgentServer.go:52-84). -/
def startTaskArgs (req : StartTaskRequest) : List (List Char) :=
  [chars "run", chars "--rm", chars "-d"]
  ++ (if req.name ≠ [] then [chars "--name", req.name] else [])
  ++ appendFlagged (chars "-e") req.envs
  ++ appendFlagged (chars "-v") req.volumes
  ++ (if req.memoryMb > 0 then [chars "--memory", intRepr req.memoryMb ++ chars "m"] else [])
  ++ (if req.gpus ≠ [] then
        [chars "--gpus", chars "device=" ++ joinSep (chars ",") (req.gpus.map intRepr)]
      else [])
  ++ [chars "--label", chars "managed-by=cangling-grpc"]
  ++ (if req.id ≠ [] then [chars "--label", chars "job-id=" ++ req.id] else [])
  ++ [req.image]

/-- Model of `GrpcServer.StartTask` (src/agent/AgentServer.go:45-107).  The
first component lists the subprocess launches performed. -/
def StartTask (req : StartTaskRequest) (out : ExecOutcome) :
    List Invocation × Except GrpcError StartTaskResponse :=
  if req.image = [] then
    ([], .error (.invalidArgument (chars "Field 'image' is required")))
  else
    let args := startTaskArgs req
    if out.exitOk then
      let containerId := trimSpace out.stdout
      ([⟨chars "docker", args⟩],
       .ok ⟨containerId, chars "Job started successfully. ID: " ++ containerId⟩)
    else
      ([⟨chars "docker", args⟩],
       .error (.internal (chars "Docker run failed: " ++ out.errText
         ++ (if out.stderr ≠ [] then chars " | Docker STDERR: " ++ out.stderr else []))))

/-- Model of `GrpcServer.StopTask` (src/agent/AgentServer.go:110-138). -/
def StopTask (name : List Char) (out : ExecOutcome) :
    Invocation × Except GrpcError StopTaskResponse :=
  let targetName := if name = [] then chars "agent-test" else name
  (⟨chars "docker", [chars "stop", targetName]⟩,
   if out.exitOk then
     .ok ⟨chars "Container '" ++ targetName ++ chars "' stopped successfully"⟩
   else if containsSub (chars "No such container") out.stderr then
     .ok ⟨chars "Container '" ++ targetName ++ chars "' was already stopped or does not exist."⟩
   else
     .error (.internal (chars "Docker stop failed: " ++ out.errText
       ++ (if out.stderr ≠ [] then chars " | Docker STDERR: " ++ out.stderr else []))))

/-- Environment of one `StreamLogs` call: whether the initial `stream.Send`
succeeded, whether `cmd.Run` returned nil, whether `stream.Context().Err()`
was non-nil when checked, the chunks the subprocess wrote to stdout, the
captured stderr, and `err.Error()` text on failure. -/
structure StreamEnv where
  initSendOk : Bool := true
  runExitOk : Bool
  ctxCanceled : Bool := false
  stdoutChunks : List (List Char) := []
  stderr : List Char := []
  errText : List Char := []

/-- Error chunk sent before `StreamLogs` returns an internal error
(src/agent/AgentServer.go:177-182). -/
def streamErrChunk (env : StreamEnv) : List Char :=
  chars "\n--- LOG STREAM ERROR ---\nDocker command failed: " ++ env.errText
  ++ (if env.stderr ≠ [] then chars "\nDocker STDERR:\n" ++ env.stderr else [])

/-- Model of `GrpcServer.StreamLogs` (src/agent/AgentServer.go:141-188).
Returns the subprocess launches, the chunks emitted on the stream, and the
call's final result. -/
def StreamLogs (name : List Char) (env : StreamEnv) :
    List Invocation × List (List Char) × Except GrpcError Unit :=
  let targetName := if name = [] then chars "agent-test" else name
  let initMsg := chars "--- Log Stream Initialized for '" ++ targetName ++ chars "' ---\n"
  if env.initSendOk = false then
    ([], [], .error .sendError)
  else
    let inv : Invocation := ⟨chars "docker", [chars "logs", chars "-f", targetName]⟩
    if env.runExitOk then
      ([inv], initMsg :: env.stdoutChunks, .ok ())
    else if env.ctxCanceled then
      ([inv], initMsg :: env.stdoutChunks, .ok ())
    else
      ([inv], (initMsg :: env.stdoutChunks) ++ [streamErrChunk env],
       .error (.internal (chars "Log stream failed: " ++ env.errText)))

/-! ## Decimal parsing (model of the number reading done by the TOML library) -/

/-- Whether a character is a decimal digit. -/
def isDigitB (c : Char) : Bool := 48 ≤ c.toNat && c.toNat ≤ 57

/-- Numeric value of a digit character. -/
def digitVal (c : Char) : Nat := c.toNat - 48

/-- Accumulating decimal parser; fails on any non-digit character. -/
def parseNatAux (acc : Nat) : List Char → Option Nat
  | [] => some acc
  | c :: cs => if isDigitB c then parseNatAux (acc * 10 + digitVal c) cs else none

/-- Parse a non-empty all-digit character list as a natural number. -/
def parseNatChars : List Char → Option Nat
  | [] => none
  | c :: cs => parseNatAux 0 (c :: cs)

/-- Parse an optionally negated decimal integer. -/
def parseIntChars : List Char → Option Int
  | [] => none
  | c :: cs =>
    if c = '-' then (parseNatChars cs).map (fun n => -(n : Int))
    else (parseNatChars (c :: cs)).map (fun n => (n : Int))

/-! ## ConfigStore (src/unnamed/part_001, package config) -/

/-- Model of the Go `config.ServerConfig` record; `port` is an `int32`. -/
structure ServerConfig where
  port : Int := 0
  agentId : List Char := []
  serverUrl : List Char := []
  deriving DecidableEq

/-- Model of the Go `config.Config` wrapper. -/
structure Config where
  server : ServerConfig
  deriving DecidableEq

/-- TOML text produced by `toml.Marshal` on a `Config` value (go-toml v2 emits
a `[server]` table with one `key = value` line per field, strings as
single-quoted literal strings). -/
def tomlMarshal (c : Config) : List Char :=
  chars "[server]\nport = " ++ intRepr c.server.port
  ++ chars "\nagentId = '" ++ c.server.agentId
  ++ chars "'\nserverUrl = '" ++ c.server.serverUrl
  ++ chars "'\n"

/-- Strip an expected prefix, returning the remainder. -/
def stripPre : List Char → List Char → Option (List Char)
  | [], xs => some xs
  | _ :: _, [] => none
  | p :: ps, x :: xs => if x = p then stripPre ps xs else none

/-- Read characters up to (and consuming) the first occurrence of a delimiter. -/
def readUntil (d : Char) : List Char → Option (List Char × List Char)
  | [] => none
  | c :: cs =>
    if c = d then some ([], cs)
    else (readUntil d cs).map (fun p => (c :: p.1, p.2))

/-- Model of `toml.Unmarshal` on the grammar `toml.Marshal` emits for a
`Config` value. -/
def tomlUnmarshal (xs : List Char) : Option Config :=
  (stripPre (chars "[server]\nport = ") xs).bind fun r1 =>
  (readUntil '\n' r1).bind fun p1 =>
  (parseIntChars p1.1).bind fun port =>
  (stripPre (chars "agentId = '") p1.2).bind fun r3 =>
  (readUntil '\'' r3).bind fun p2 =>
  (stripPre (chars "\nserverUrl = '") p2.2).bind fun r5 =>
  (readUntil '\'' r5).bind fun p3 =>
  if p3.2 = chars "\n" then some ⟨⟨port, p2.1, p3.1⟩⟩ else none

/-- File system model: contents by path, `none` when the file does not exist. -/
def FS : Type := List Char → Option (List Char)

/-- Effect of `os.WriteFile` on the file system model. -/
def fsWrite (fs : FS) (p v : List Char) : FS :=
  fun q => if q = p then some v else fs q

/-- Model of Go `path.Join` of a directory and a relative path. -/
def pathJoin (dir rel : List Char) : List Char := dir ++ '/' :: rel

/-- Model of `readConfig` (src/unnamed/part_001:139-157): stat + read + unmarshal;
any failure is an error (`none`). -/
def readConfig (fs : FS) (fileName : List Char) : Option Config :=
  (fs fileName).bind tomlUnmarshal

/-- Model of `writeConfig` (src/unnamed/part_001:116-136): resolves the empty
path to `<currDir>/config.toml` and returns the single write performed. -/
def writeConfig (fileName currDir : List Char) (c : Config) : List (List Char × List Char) :=
  let fn := if fileName = [] then pathJoin currDir (chars "config.toml") else fileName
  [(fn, tomlMarshal c)]

/-- Model of `createConfig` (src/unnamed/part_001:159-166); unset Go struct
fields are zero values. -/
def createConfig : Config := ⟨{ port := 50051, agentId := [] }⟩

/-- Model of `GetConfig` (src/unnamed/part_001:69-105): explicit path if
non-empty, else current-directory `config.toml`, else home-directory
`.cangling/config.toml`, else a freshly created default persisted to the
current-directory path.  The second component lists the file writes performed. -/
def GetConfig (fs : FS) (currDir homeDir fileName : List Char) :
    Option Config × List (List Char × List Char) :=
  if fileName = [] then
    let currenDirConfig := pathJoin currDir (chars "config.toml")
    match readConfig fs currenDirConfig with
    | some config => (some config, [])
    | none =>
      let homePath := pathJoin homeDir (chars ".cangling/config.toml")
      match readConfig fs homePath with
      | some homeDirConfig => (some homeDirConfig, [])
      | none =>
        let newConfig := createConfig
        (some newConfig, [(currenDirConfig, tomlMarshal newConfig)])
  else
    (readConfig fs fileName, [])

/-- Validity of a config record: the port fits in an `int32` (it is one in Go)
and the string fields contain no newline and no single quote, so that the
TOML literal-string form is used. -/
def validConfig (c : Config) : Prop :=
  -(2 ^ 31) ≤ c.server.port ∧ c.server.port < 2 ^ 31
  ∧ '\'' ∉ c.server.agentId ∧ '\n' ∉ c.server.agentId
  ∧ '\'' ∉ c.server.serverUrl ∧ '\n' ∉ c.server.serverUrl

instance (c : Config) : Decidable (validConfig c) := by
  unfold validConfig; infer_instance

/-! ## Heartbeat scheduler loop (src/unnamed/part_000:147-168) -/

/-- One event consumed by the scheduler's `select`: either the `done` channel
closed (shutdown) or the ticker fired; a tick records whether
`agent.ReportAgentToServer` returned a non-nil error. -/
inductive LoopEvent where
  | done
  | tick (reportFailed : Bool)
  deriving DecidableEq

/-- Run of the scheduler loop over a sequence of events: returns the report
outcomes of the ticks handled (in order) and whether the loop is still
running afterwards.  A `done` event returns from the goroutine; a tick's
report error is logged and the loop continues. -/
def runLoop : List LoopEvent → List Bool × Bool
  | [] => ([], true)
  | .done :: _ => ([], false)
  | .tick e :: rest => (e :: (runLoop rest).1, (runLoop rest).2)

/-- Tick payload of an event, if it is a tick. -/
def tickOutcome : LoopEvent → Option Bool
  | .done => none
  | .tick e => some e

/-! ## Registration and heartbeat report (src/agent/Register.go) -/

/-- Loosely-shaped JSON value, modelling what `encoding/json` decodes into an
`interface{}` field. -/
inductive JValue where
  | null
  | jbool (b : Bool)
  | num (n : Int)
  | str (s : List Char)
  | arr (xs : List JValue)
  | obj (fields : List (List Char × JValue))

/-- Lookup in a decoded JSON object (Go map indexing). -/
def lookupField (fields : List (List Char × JValue)) (key : List Char) : Option JValue :=
  match fields with
  | [] => none
  | (k, v) :: rest => if k = key then some v else lookupField rest key

/-- Model of the decoded `ApiResult` envelope `{code, message, data}`. -/
structure ApiResult where
  code : Int
  message : List Char
  data : JValue := .null

/-- Outcome of `postJSON`: `fail` covers request-building errors, network
errors, non-2xx HTTP status, and body-decode errors; `success` carries the
decoded envelope. -/
inductive PostOutcome where
  | fail (errText : List Char)
  | success (result : ApiResult)

/-- Model of the Go `Gpu` record. -/
structure Gpu where
  module : List Char := []
  memory : Int := 0
  processId : List Char := []
  taskId : List Char := []
  slot : Int := 0

/-- Model of the Go `WorkNode` record; field defaults are Go zero values, so a
Go struct literal that omits a field is modelled by omitting it here. -/
structure WorkNode where
  id : List Char := []
  name : List Char := []
  internalIp : List Char := []
  port : Int := 0
  os : List Char := []
  architecture : List Char := []
  agentVersion : List Char := []
  memory : Nat := 0
  storage : Nat := 0
  pods : Nat := 0
  memoryFree : Nat := 0
  storageFree : Nat := 0
  runningPods : Nat := 0
  online : Bool := false
  createTime : Int := 0
  onlineTime : Int := 0
  gpus : List Gpu := []

/-- Model of the Go `RegisterRequest` body `{registerKey, node}`. -/
structure RegisterRequest where
  registerKey : List Char := []
  node : WorkNode

/-- Host environment seen by `ReportAgentToServer`: hostname lookup result
(`none` models an `os.Hostname` error), live memory statistics in GB, the
build's OS/architecture, and the outcome of the HTTP POST. -/
structure ReportEnv where
  hostname : Option (List Char) := none
  memoryGb : Nat := 0
  memoryFreeGb : Nat := 0
  goos : List Char := []
  goarch : List Char := []
  post : PostOutcome

/-- Node snapshot built by `ReportAgentToServer` (src/agent/Register.go:65-76);
fields the Go code does not set stay at their zero values. -/
def reportNode (cfg : Config) (version : List Char) (env : ReportEnv) : WorkNode :=
  { id := cfg.server.agentId
    name := env.hostname.getD []
    memory := env.memoryGb
    memoryFree := env.memoryFreeGb
    online := true
    architecture := env.goarch
    os := env.goos
    agentVersion := version }

/-- Model of `ReportAgentToServer` (src/agent/Register.go:56-86).  The first
component is the POST attempted (target url and body), `none` when no network
call is made; the second is the returned error, success exactly when the
envelope decodes with `code == 200`. -/
def ReportAgentToServer (cfg : Config) (version : List Char) (env : ReportEnv) :
    Option (List Char × RegisterRequest) × Except (List Char) Unit :=
  if cfg.server.serverUrl = [] then
    (none, .error (chars "this agent dose not have register to a server"))
  else
    let request : RegisterRequest := { node := reportNode cfg version env }
    (some (cfg.server.serverUrl, request),
     match env.post with
     | .fail e => .error e
     | .success result => if result.code = 200 then .ok () else .error result.message)

/-- Host environment seen by `Register`: hostname and local-IP lookup results
(`none` models failure), live memory statistics, OS/architecture, and the
POST outcome. -/
structure RegisterEnv where
  hostname : Option (List Char) := none
  localIp : Option (List Char) := none
  memoryGb : Nat := 0
  memoryFreeGb : Nat := 0
  goos : List Char := []
  goarch : List Char := []
  post : PostOutcome

/-- Error kinds of `Register` (src/agent/Register.go:89-143), one per distinct
return path. -/
inductive RegisterError where
  | argError
  | hostnameError
  | ipError
  | postError (e : List Char)
  | codeError (message : List Char)
  | dataNotMap
  | nodeNotMap
  | idNotString
  deriving DecidableEq

/-- Model of `Register` (src/agent/Register.go:89-143): validates url/token,
builds the registration body, POSTs it, requires envelope `code == 200`, then
extracts `data.node.id` through loose shape assertions, each failure distinct.
The first component is the POST attempted (target url and body), `none` when
no network call is made. -/
def Register (url token : List Char) (port : Int) (version : List Char)
    (env : RegisterEnv) :
    Option (List Char × RegisterRequest) × Except RegisterError (List Char) :=
  if url ≠ [] ∧ token ≠ [] then
    match env.hostname with
    | none => (none, .error .hostnameError)
    | some hostName =>
      match env.localIp with
      | none => (none, .error .ipError)
      | some ip =>
        let request : RegisterRequest :=
          { registerKey := token
            node := { name := hostName
                      internalIp := ip
                      port := port
                      memory := env.memoryGb
                      memoryFree := env.memoryFreeGb
                      architecture := env.goarch
                      os := env.goos
                      agentVersion := version } }
        (some (url, request),
         match env.post with
         | .fail e => .error (.postError e)
         | .success result =>
           if result.code ≠ 200 then .error (.codeError result.message)
           else
             match result.data with
             | .obj dataMap =>
               match lookupField dataMap (chars "node") with
               | some (.obj nodeMap) =>
                 match lookupField nodeMap (chars "id") with
                 | some (.str nodeId) => .ok nodeId
                 | _ => .error .idNotString
               | _ => .error .nodeNotMap
             | _ => .error .dataNotMap)
  else (none, .error .argError)

/-- Model of the `register` subcommand body (src/unnamed/part_000:95-114):
on a `Register` error it only logs; on success it sets `agentId` to the
returned node id and `serverUrl` to the given url, then persists.  The second
component lists the config records persisted by `Config.Write`. -/
def registerCmd (cfg : Config) (url token version : List Char) (env : RegisterEnv) :
    Config × List Config :=
  match (Register url token cfg.server.port version env).2 with
  | .error _ => (cfg, [])
  | .ok nodeId =>
    let newCfg : Config := ⟨{ cfg.server with agentId := nodeId, serverUrl := url }⟩
    (newCfg, [newCfg])

/-! ## Concrete inputs used to instantiate the verified properties -/

/-- Start request with only the image set, as in the spec's test scenario. -/
def reqNginx : StartTaskRequest := { image := chars "nginx:latest" }

/-- Successful runtime outcome whose stdout is a container id with whitespace. -/
def outNginx : ExecOutcome := { exitOk := true, stdout := chars " abc123\n" }

/-- Start request with an empty image (all fields at their zero values). -/
def reqEmptyImage : StartTaskRequest := {}

/-- Failing runtime outcome whose stderr names a missing container. -/
def outNotFound : ExecOutcome :=
  { exitOk := false
    stderr := chars "Error response from daemon: No such container: job-7"
    errText := chars "exit status 1" }

/-- Successful runtime outcome with no output. -/
def outPlainOk : ExecOutcome := { exitOk := true }

/-- Stream environment: subprocess failed, client still connected. -/
def envStreamFail : StreamEnv :=
  { initSendOk := true
    runExitOk := false
    ctxCanceled := false
    stdoutChunks := [chars "line 1\n"]
    stderr := chars "Error: No such container: agent-test"
    errText := chars "exit status 1" }

/-- Stream environment: subprocess killed because the client disconnected. -/
def envStreamCancel : StreamEnv :=
  { initSendOk := true
    runExitOk := false
    ctxCanceled := true
    stdoutChunks := [chars "line 1\n"]
    errText := chars "signal: killed" }

/-- Registered config used to exercise the heartbeat report. -/
def cfgHeart : Config :=
  ⟨⟨50051, chars "agent-1", chars "http://server:8080/api/agent/report"⟩⟩

/-- Report environment for one heartbeat tick that the server accepts. -/
def envHeart : ReportEnv :=
  { hostname := some (chars "worker-1")
    memoryGb := 16
    memoryFreeGb := 8
    goos := chars "linux"
    goarch := chars "amd64"
    post := .success { code := 200, message := chars "ok" } }

/-- Unregistered config used to exercise the register subcommand. -/
def cfgReg : Config := ⟨⟨50051, [], []⟩⟩

/-- Registration environment in which the hostname lookup fails. -/
def envRegFail : RegisterEnv := { post := .fail (chars "connection refused") }

/-- Registration environment in which the handshake fully succeeds. -/
def envRegOk : RegisterEnv :=
  { hostname := some (chars "worker-1")
    localIp := some (chars "10.0.0.5")
    memoryGb := 16
    memoryFreeGb := 8
    goos := chars "linux"
    goarch := chars "amd64"
    post := .success
      ⟨200, chars "ok", .obj [(chars "node", .obj [(chars "id", .str (chars "node-42"))])]⟩ }

end Cangling

namespace Cangling

/-! ## Helper lemmas -/

theorem isPrefixB_append (n post : List Char) : isPrefixB n (n ++ post) = true := by
  induction n with
  | nil => rfl
  | cons a as ih => simp [isPrefixB, ih]

theorem containsSub_of_exact (n post : List Char) : containsSub n (n ++ post) = true := by
  cases n with
  | nil => cases post <;> simp [containsSub, isPrefixB]
  | cons a as =>
    show (isPrefixB (a :: as) ((a :: as) ++ post) || containsSub (a :: as) (as ++ post)) = true
    rw [isPrefixB_append]
    simp

theorem containsSub_append (n pre post : List Char) :
    containsSub n (pre ++ n ++ post) = true := by
  induction pre with
  | nil => simpa using containsSub_of_exact n post
  | cons p ps ih =>
    show (isPrefixB n (p :: (ps ++ n ++ post)) || containsSub n (ps ++ n ++ post)) = true
    rw [ih]
    simp

theorem containsSub_middle (n pre post : List Char) :
    containsSub n (pre ++ (n ++ post)) = true := by
  have h := containsSub_append n pre post
  rwa [List.append_assoc] at h

theorem toNat_digitChar (k : Nat) (hk : k < 10) : (digitChar k).toNat = 48 + k := by
  interval_cases k <;> rfl

theorem isDigitB_digitChar (k : Nat) (hk : k < 10) : isDigitB (digitChar k) = true := by
  unfold isDigitB
  rw [toNat_digitChar k hk]
  simp only [Bool.and_eq_true, decide_eq_true_eq]
  omega

theorem digitVal_digitChar (k : Nat) (hk : k < 10) : digitVal (digitChar k) = k := by
  simp [digitVal, toNat_digitChar k hk]

theorem digitChar_toNat_range (k : Nat) (hk : k < 10) (c : Char)
    (hc : c.toNat < 48 ∨ 57 < c.toNat) : digitChar k ≠ c := by
  intro h
  have h2 : (digitChar k).toNat = c.toNat := congrArg Char.toNat h
  rw [toNat_digitChar k hk] at h2
  omega

theorem mem_natDigitsAux (fuel : Nat) :
    ∀ (n : Nat) (c : Char), c ∈ natDigitsAux fuel n → ∃ k, k < 10 ∧ c = digitChar k := by
  induction fuel with
  | zero => intro n c h; simp [natDigitsAux] at h
  | succ f ih =>
    intro n c h
    by_cases hn : n < 10
    · simp [natDigitsAux, hn] at h
      exact ⟨n, hn, h⟩
    · simp [natDigitsAux, hn] at h
      rcases h with h | h
      · exact ih _ _ h
      · exact ⟨n % 10, Nat.mod_lt _ (by omega), h⟩

theorem newline_not_mem_natDigits (n : Nat) : '\n' ∉ natDigits n := by
  intro h
  obtain ⟨k, hk, he⟩ := mem_natDigitsAux 20 n '\n' h
  exact digitChar_toNat_range k hk '\n' (by decide) he.symm

theorem newline_not_mem_intRepr (i : Int) : '\n' ∉ intRepr i := by
  unfold intRepr
  split
  · intro h
    rcases List.mem_cons.mp h with h | h
    · exact absurd h (by decide)
    · exact newline_not_mem_natDigits _ h
  · exact newline_not_mem_natDigits _

theorem natDigitsAux_ne_nil (f n : Nat) : natDigitsAux (f + 1) n ≠ [] := by
  by_cases hn : n < 10 <;> simp [natDigitsAux, hn]

theorem parseNatAux_append (xs ys : List Char) (acc : Nat) :
    parseNatAux acc (xs ++ ys) = (parseNatAux acc xs).bind fun a => parseNatAux a ys := by
  induction xs generalizing acc with
  | nil => simp [parseNatAux]
  | cons c cs ih =>
    by_cases hc : isDigitB c <;> simp [parseNatAux, hc, ih]

theorem parseNatAux_natDigitsAux (fuel : Nat) :
    ∀ (n acc : Nat), n < 10 ^ fuel →
      parseNatAux acc (natDigitsAux fuel n) =
        some (acc * 10 ^ (natDigitsAux fuel n).length + n) := by
  induction fuel with
  | zero =>
    intro n acc h
    have hn : n = 0 := by simpa using h
    subst hn
    simp [natDigitsAux, parseNatAux]
  | succ f ih =>
    intro n acc h
    by_cases hn : n < 10
    · simp [natDigitsAux, hn, parseNatAux, isDigitB_digitChar n hn, digitVal_digitChar n hn]
    · have hdiv : n / 10 < 10 ^ f := by
        apply Nat.div_lt_of_lt_mul
        calc n < 10 ^ (f + 1) := h
        _ = 10 * 10 ^ f := by rw [pow_succ]; ring
      have hstep : natDigitsAux (f + 1) n = natDigitsAux f (n / 10) ++ [digitChar (n % 10)] := by
        simp [natDigitsAux, hn]
      have hm : n % 10 < 10 := Nat.mod_lt _ (by omega)
      rw [hstep, parseNatAux_append, ih _ _ hdiv]
      simp only [Option.some_bind, parseNatAux, isDigitB_digitChar _ hm, if_pos,
        digitVal_digitChar _ hm, List.length_append, List.length_cons, List.length_nil]
      have hmod : 10 * (n / 10) + n % 10 = n := Nat.div_add_mod n 10
      congr 1
      calc (acc * 10 ^ (natDigitsAux f (n / 10)).length + n / 10) * 10 + n % 10
          = acc * (10 ^ (natDigitsAux f (n / 10)).length * 10) + (10 * (n / 10) + n % 10) := by
            ring
        _ = acc * 10 ^ ((natDigitsAux f (n / 10)).length + 1) + n := by
            rw [hmod, pow_succ]

theorem natDigits_ne_nil (n : Nat) : natDigits n ≠ [] := by
  unfold natDigits
  exact natDigitsAux_ne_nil 19 n

theorem parseNat_natDigits (n : Nat) (h : n < 10 ^ 20) :
    parseNatChars (natDigits n) = some n := by
  obtain ⟨c, cs, hcons⟩ := List.exists_cons_of_ne_nil (natDigits_ne_nil n)
  have hp : parseNatAux 0 (natDigits n) = some (0 * 10 ^ (natDigits n).length + n) :=
    parseNatAux_natDigitsAux 20 n 0 h
  rw [hcons] at hp
  rw [hcons]
  show parseNatAux 0 (c :: cs) = some n
  rw [hp]
  simp

theorem parseInt_intRepr (i : Int) (h : i.natAbs < 10 ^ 20) :
    parseIntChars (intRepr i) = some i := by
  by_cases hi : i < 0
  · have hrep : intRepr i = '-' :: natDigits i.natAbs := by simp [intRepr, hi]
    rw [hrep]
    show (if '-' = '-' then (parseNatChars (natDigits i.natAbs)).map (fun n => -(n : Int))
          else (parseNatChars ('-' :: natDigits i.natAbs)).map (fun n => (n : Int))) = some i
    rw [if_pos rfl, parseNat_natDigits _ h]
    show some (-(i.natAbs : Int)) = some i
    rw [show (-(i.natAbs : Int)) = i by omega]
  · have hrep : intRepr i = natDigits i.natAbs := by simp [intRepr, hi]
    obtain ⟨c, cs, hcons⟩ := List.exists_cons_of_ne_nil (natDigits_ne_nil i.natAbs)
    have hcmem : c ∈ natDigits i.natAbs := by rw [hcons]; simp
    obtain ⟨k, hk, hck⟩ := mem_natDigitsAux 20 i.natAbs c hcmem
    have hneq : c ≠ '-' := by rw [hck]; exact digitChar_toNat_range k hk '-' (by decide)
    rw [hrep, hcons]
    show (if c = '-' then (parseNatChars cs).map (fun n => -(n : Int))
          else (parseNatChars (c :: cs)).map (fun n => (n : Int))) = some i
    rw [if_neg hneq]
    have hp : parseNatChars (c :: cs) = some i.natAbs := by
      rw [← hcons]
      exact parseNat_natDigits _ h
    rw [hp]
    show some ((i.natAbs : Int)) = some i
    rw [show ((i.natAbs : Int)) = i by omega]

theorem stripPre_append (ps rest : List Char) : stripPre ps (ps ++ rest) = some rest := by
  induction ps with
  | nil => rfl
  | cons p pp ih => simp [stripPre, ih]

theorem readUntil_append (d : Char) (as bs : List Char) (h : d ∉ as) :
    readUntil d (as ++ d :: bs) = some (as, bs) := by
  induction as with
  | nil => simp [readUntil]
  | cons a aa ih =>
    have hne : a ≠ d := fun he => h (by simp [he])
    have h' : d ∉ aa := fun hm => h (List.mem_cons_of_mem _ hm)
    show (if a = d then some ([], aa ++ d :: bs)
          else (readUntil d (aa ++ d :: bs)).map (fun p => (a :: p.1, p.2))) = some (a :: aa, bs)
    rw [if_neg hne, ih h']
    rfl

theorem tomlUnmarshal_tomlMarshal (c : Config) (h : validConfig c) :
    tomlUnmarshal (tomlMarshal c) = some c := by
  obtain ⟨hp1, hp2, haq, han, hsq, hsn⟩ := h
  have hb : c.server.port.natAbs < 10 ^ 20 := by
    have e31 : (2 : Int) ^ 31 = 2147483648 := by norm_num
    have e20 : (10 : Nat) ^ 20 = 100000000000000000000 := by norm_num
    rw [e31] at hp1 hp2
    rw [e20]
    omega
  have hnl : '\n' ∉ intRepr c.server.port := newline_not_mem_intRepr _
  have e1 : chars "\nagentId = '" = '\n' :: chars "agentId = '" := by decide
  have e2 : chars "'\nserverUrl = '" = '\'' :: chars "\nserverUrl = '" := by decide
  have e3 : chars "'\n" = '\'' :: chars "\n" := by decide
  unfold tomlMarshal tomlUnmarshal
  simp only [e1, e2, e3, List.append_assoc, List.cons_append]
  rw [stripPre_append]
  simp only [Option.some_bind]
  rw [readUntil_append '\n' _ _ hnl]
  simp only [Option.some_bind]
  rw [parseInt_intRepr _ hb]
  simp only [Option.some_bind]
  rw [stripPre_append]
  simp only [Option.some_bind]
  rw [readUntil_append '\'' _ _ haq]
  simp only [Option.some_bind]
  rw [stripPre_append]
  simp only [Option.some_bind]
  rw [readUntil_append '\'' _ _ hsq]
  simp only [Option.some_bind]
  simp

/-! ## Claim theorems -/

/-- C1: for every start request with a non-empty image, `StartTask` builds the
docker argument vector in exactly the fixed order — base flags
(run, remove-on-exit, detached), name flag if non-empty, one env flag per
entry in input order, one volume flag per entry in input order, memory flag
`<N>m` if MemoryMb > 0, GPU flag with device ids joined by commas if any,
the fixed managed-by label, a job-id label if id is non-empty, the image
last — and on success the returned containerId is the subprocess stdout with
surrounding whitespace trimmed. -/
theorem startTask_fixed_arg_order (req : StartTaskRequest) (out : ExecOutcome)
    (h : req.image ≠ []) :
    (StartTask req out).1 = [⟨chars "docker", startTaskArgs req⟩] ∧
    startTaskArgs req =
      [chars "run", chars "--rm", chars "-d"]
      ++ (if req.name ≠ [] then [chars "--name", req.name] else [])
      ++ appendFlagged (chars "-e") req.envs
      ++ appendFlagged (chars "-v") req.volumes
      ++ (if req.memoryMb > 0 then [chars "--memory", intRepr req.memoryMb ++ chars "m"] else [])
      ++ (if req.gpus ≠ [] then
            [chars "--gpus", chars "device=" ++ joinSep (chars ",") (req.gpus.map intRepr)]
          else [])
      ++ [chars "--label", chars "managed-by=cangling-grpc"]
      ++ (if req.id ≠ [] then [chars "--label", chars "job-id=" ++ req.id] else [])
      ++ [req.image] ∧
    (startTaskArgs req).getLast? = some req.image ∧
    (out.exitOk = true →
      (StartTask req out).2 =
        .ok ⟨trimSpace out.stdout,
             chars "Job started successfully. ID: " ++ trimSpace out.stdout⟩) := by
  refine ⟨?_, rfl, ?_, ?_⟩
  · cases hx : out.exitOk <;> simp [StartTask, h, hx]
  · exact List.getLast?_concat _
  · intro hx
    simp [StartTask, h, hx]

/-- C1 witness: the property instantiated at the spec's `{image:"nginx:latest"}`
scenario with stdout `" abc123\n"`. -/
theorem startTask_fixed_arg_order_witness :
    reqNginx.image ≠ [] ∧
    ((StartTask reqNginx outNginx).1 = [⟨chars "docker", startTaskArgs reqNginx⟩] ∧
     startTaskArgs reqNginx =
       [chars "run", chars "--rm", chars "-d"]
       ++ (if reqNginx.name ≠ [] then [chars "--name", reqNginx.name] else [])
       ++ appendFlagged (chars "-e") reqNginx.envs
       ++ appendFlagged (chars "-v") reqNginx.volumes
       ++ (if reqNginx.memoryMb > 0 then
             [chars "--memory", intRepr reqNginx.memoryMb ++ chars "m"] else [])
       ++ (if reqNginx.gpus ≠ [] then
             [chars "--gpus", chars "device=" ++ joinSep (chars ",") (reqNginx.gpus.map intRepr)]
           else [])
       ++ [chars "--label", chars "managed-by=cangling-grpc"]
       ++ (if reqNginx.id ≠ [] then [chars "--label", chars "job-id=" ++ reqNginx.id] else [])
       ++ [reqNginx.image] ∧
     (startTaskArgs reqNginx).getLast? = some reqNginx.image ∧
     (outNginx.exitOk = true →
       (StartTask reqNginx outNginx).2 =
         .ok ⟨trimSpace outNginx.stdout,
              chars "Job started successfully. ID: " ++ trimSpace outNginx.stdout⟩)) :=
  ⟨by decide, startTask_fixed_arg_order reqNginx outNginx (by decide)⟩

/-- C4: for every start request with an empty image, `StartTask` fails with an
invalid-argument error and launches no subprocess. -/
theorem startTask_empty_image_rejected (req : StartTaskRequest) (out : ExecOutcome)
    (h : req.image = []) :
    (StartTask req out).1 = [] ∧
    (StartTask req out).2 = .error (.invalidArgument (chars "Field 'image' is required")) := by
  simp [StartTask, h]

/-- C4 witness: the property instantiated at the all-defaults request. -/
theorem startTask_empty_image_rejected_witness :
    reqEmptyImage.image = [] ∧
    ((StartTask reqEmptyImage outPlainOk).1 = [] ∧
     (StartTask reqEmptyImage outPlainOk).2 =
       .error (.invalidArgument (chars "Field 'image' is required"))) :=
  ⟨by decide, startTask_empty_image_rejected reqEmptyImage outPlainOk (by decide)⟩

/-- C2: whenever the docker stop subprocess fails and its captured stderr
contains "No such container", `StopTask` returns a success (no error) whose
message contains the target container name. -/
theorem stopTask_not_found_is_success (name : List Char) (out : ExecOutcome)
    (h1 : out.exitOk = false)
    (h2 : containsSub (chars "No such container") out.stderr = true) :
    (StopTask name out).2 =
      .ok ⟨chars "Container '" ++ (if name = [] then chars "agent-test" else name)
            ++ chars "' was already stopped or does not exist."⟩ ∧
    containsSub (if name = [] then chars "agent-test" else name)
      (chars "Container '" ++ (if name = [] then chars "agent-test" else name)
        ++ chars "' was already stopped or does not exist.") = true := by
  constructor
  · simp [StopTask, h1, h2]
  · exact containsSub_append _ _ _

/-- C2 witness: stop of a missing container named `job-7`. -/
theorem stopTask_not_found_is_success_witness :
    outNotFound.exitOk = false ∧
    containsSub (chars "No such container") outNotFound.stderr = true ∧
    ((StopTask (chars "job-7") outNotFound).2 =
       .ok ⟨chars "Container '" ++ (if chars "job-7" = [] then chars "agent-test" else chars "job-7")
             ++ chars "' was already stopped or does not exist."⟩ ∧
     containsSub (if chars "job-7" = [] then chars "agent-test" else chars "job-7")
       (chars "Container '" ++ (if chars "job-7" = [] then chars "agent-test" else chars "job-7")
         ++ chars "' was already stopped or does not exist.") = true) :=
  ⟨by decide, by decide,
   stopTask_not_found_is_success (chars "job-7") outNotFound (by decide) (by decide)⟩

/-- C9: a stop or stream-logs request with an empty name targets the literal
container name `agent-test`: the subprocess is invoked with `agent-test` in
place of the missing name, every success message of `StopTask` names that
target, and the stream's announcement chunk names that target. -/
theorem empty_name_targets_agent_test (outStop : ExecOutcome) (env : StreamEnv)
    (h : env.initSendOk = true) :
    (StopTask [] outStop).1 = ⟨chars "docker", [chars "stop", chars "agent-test"]⟩ ∧
    (∀ resp, (StopTask [] outStop).2 = .ok resp →
      containsSub (chars "agent-test") resp.message = true) ∧
    (StreamLogs [] env).1 = [⟨chars "docker", [chars "logs", chars "-f", chars "agent-test"]⟩] ∧
    (StreamLogs [] env).2.1.head? =
      some (chars "--- Log Stream Initialized for '" ++ chars "agent-test" ++ chars "' ---\n") ∧
    containsSub (chars "agent-test")
      (chars "--- Log Stream Initialized for '" ++ chars "agent-test" ++ chars "' ---\n") =
      true := by
  refine ⟨rfl, ?_, ?_, ?_, containsSub_append _ _ _⟩
  · intro resp hresp
    by_cases hx : outStop.exitOk
    · simp only [StopTask, hx, if_true] at hresp
      simp only [if_pos rfl, Except.ok.injEq] at hresp
      rw [← hresp]
      exact containsSub_append _ _ _
    · by_cases hc : containsSub (chars "No such container") outStop.stderr
      · simp only [StopTask, hx, if_false, Bool.false_eq_true, if_pos rfl, hc, if_true,
          Except.ok.injEq] at hresp
        rw [← hresp]
        exact containsSub_append _ _ _
      · simp [StopTask, hx, hc] at hresp
  · cases hr : env.runExitOk <;> cases hc : env.ctxCanceled <;> simp [StreamLogs, h, hr, hc]
  · cases hr : env.runExitOk <;> cases hc : env.ctxCanceled <;> simp [StreamLogs, h, hr, hc]

/-- C9 witness: the property instantiated at a successful stop outcome and a
cancelled stream environment. -/
theorem empty_name_targets_agent_test_witness :
    envStreamCancel.initSendOk = true ∧
    ((StopTask [] outPlainOk).1 = ⟨chars "docker", [chars "stop", chars "agent-test"]⟩ ∧
     (∀ resp, (StopTask [] outPlainOk).2 = .ok resp →
       containsSub (chars "agent-test") resp.message = true) ∧
     (StreamLogs [] envStreamCancel).1 =
       [⟨chars "docker", [chars "logs", chars "-f", chars "agent-test"]⟩] ∧
     (StreamLogs [] envStreamCancel).2.1.head? =
       some (chars "--- Log Stream Initialized for '" ++ chars "agent-test" ++ chars "' ---\n") ∧
     containsSub (chars "agent-test")
       (chars "--- Log Stream Initialized for '" ++ chars "agent-test" ++ chars "' ---\n") =
       true) :=
  ⟨by decide, empty_name_targets_agent_test outPlainOk envStreamCancel (by decide)⟩

/-- C5: once the stream is initialized, a `StreamLogs` call whose cancellation
signal fired completes without returning an error, and a call whose
subprocess fails without cancellation emits an error-annotated chunk as the
final chunk and then returns an internal error. -/
theorem streamLogs_termination (name : List Char) (env : StreamEnv)
    (h : env.initSendOk = true) :
    (env.ctxCanceled = true → (StreamLogs name env).2.2 = .ok ()) ∧
    (env.runExitOk = false → env.ctxCanceled = false →
      (StreamLogs name env).2.1.getLast? = some (streamErrChunk env) ∧
      containsSub (chars "--- LOG STREAM ERROR ---") (streamErrChunk env) = true ∧
      (StreamLogs name env).2.2 =
        .error (.internal (chars "Log stream failed: " ++ env.errText))) := by
  constructor
  · intro hc
    cases hr : env.runExitOk <;> simp [StreamLogs, h, hr, hc]
  · intro hr hc
    refine ⟨?_, ?_, ?_⟩
    · simp only [StreamLogs, h, hr, hc, Bool.true_eq_false, Bool.false_eq_true, if_false]
      exact List.getLast?_concat _
    · have edec : chars "\n--- LOG STREAM ERROR ---\nDocker command failed: " =
          chars "\n" ++ (chars "--- LOG STREAM ERROR ---"
            ++ chars "\nDocker command failed: ") := by decide
      unfold streamErrChunk
      rw [edec]
      simp only [List.append_assoc]
      exact containsSub_middle _ _ _
    · simp [StreamLogs, h, hr, hc]

/-- C5 witness: the property instantiated at a subprocess failure without
cancellation. -/
theorem streamLogs_termination_witness :
    envStreamFail.initSendOk = true ∧
    ((envStreamFail.ctxCanceled = true → (StreamLogs (chars "job-7") envStreamFail).2.2 = .ok ()) ∧
     (envStreamFail.runExitOk = false → envStreamFail.ctxCanceled = false →
       (StreamLogs (chars "job-7") envStreamFail).2.1.getLast? =
         some (streamErrChunk envStreamFail) ∧
       containsSub (chars "--- LOG STREAM ERROR ---") (streamErrChunk envStreamFail) = true ∧
       (StreamLogs (chars "job-7") envStreamFail).2.2 =
         .error (.internal (chars "Log stream failed: " ++ envStreamFail.errText)))) :=
  ⟨by decide, streamLogs_termination (chars "job-7") envStreamFail (by decide)⟩

/-- C3: a tick whose report fails is discarded and never stops the scheduler
loop: any shutdown-free prefix of events — failing ticks included — is fully
handled and the loop continues through the remaining events exactly as it
would have, so after any failing tick the next tick still fires. -/
theorem heartbeat_failed_tick_never_stops_loop (pre post : List LoopEvent)
    (h : LoopEvent.done ∉ pre) :
    runLoop (pre ++ post) = (pre.filterMap tickOutcome ++ (runLoop post).1, (runLoop post).2) := by
  induction pre with
  | nil => simp
  | cons e es ih =>
    cases e with
    | done => simp at h
    | tick b =>
      have h' : LoopEvent.done ∉ es := fun hm => h (List.mem_cons_of_mem _ hm)
      simp [runLoop, tickOutcome, ih h']

/-- C3 witness: a failing tick followed by a further tick that is still
handled, with the loop still running. -/
theorem heartbeat_failed_tick_never_stops_loop_witness :
    LoopEvent.done ∉ [LoopEvent.tick true] ∧
    runLoop ([LoopEvent.tick true] ++ [LoopEvent.tick false]) =
      ([LoopEvent.tick true].filterMap tickOutcome ++ (runLoop [LoopEvent.tick false]).1,
       (runLoop [LoopEvent.tick false]).2) :=
  ⟨by decide, heartbeat_failed_tick_never_stops_loop [LoopEvent.tick true]
    [LoopEvent.tick false] (by decide)⟩

/-- C7: for every valid config record, saving it and then loading from the
same path yields the same record: the TOML serialization round-trips
losslessly, dropping no field. -/
theorem config_save_load_roundtrip (fs : FS) (p : List Char) (c : Config)
    (h : validConfig c) :
    readConfig (fsWrite fs p (tomlMarshal c)) p = some c ∧
    tomlUnmarshal (tomlMarshal c) = some c := by
  have hu := tomlUnmarshal_tomlMarshal c h
  refine ⟨?_, hu⟩
  unfold readConfig fsWrite
  simp [hu]

/-- C7 witness: round-trip of a concrete registered record. -/
theorem config_save_load_roundtrip_witness :
    validConfig ⟨⟨50051, chars "node-1", chars "http://server:8080/api/agent"⟩⟩ ∧
    (readConfig
       (fsWrite (fun _ => none) (chars "/work/config.toml")
         (tomlMarshal ⟨⟨50051, chars "node-1", chars "http://server:8080/api/agent"⟩⟩))
       (chars "/work/config.toml") =
       some ⟨⟨50051, chars "node-1", chars "http://server:8080/api/agent"⟩⟩ ∧
     tomlUnmarshal (tomlMarshal ⟨⟨50051, chars "node-1", chars "http://server:8080/api/agent"⟩⟩) =
       some ⟨⟨50051, chars "node-1", chars "http://server:8080/api/agent"⟩⟩) :=
  ⟨by decide, config_save_load_roundtrip (fun _ => none) (chars "/work/config.toml")
    ⟨⟨50051, chars "node-1", chars "http://server:8080/api/agent"⟩⟩ (by decide)⟩

/-- C8: when `GetConfig` is called with an empty explicit path and neither the
current-directory nor the home-directory config file exists, it synthesizes
the default record (port 50051, empty agentId, empty serverUrl), persists it
to the current-directory path, and returns it. -/
theorem getConfig_synthesizes_default (fs : FS) (currDir homeDir : List Char)
    (h1 : fs (pathJoin currDir (chars "config.toml")) = none)
    (h2 : fs (pathJoin homeDir (chars ".cangling/config.toml")) = none) :
    GetConfig fs currDir homeDir [] =
      (some createConfig, [(pathJoin currDir (chars "config.toml"), tomlMarshal createConfig)]) ∧
    createConfig.server.port = 50051 ∧
    createConfig.server.agentId = [] ∧
    createConfig.server.serverUrl = [] := by
  refine ⟨?_, rfl, rfl, rfl⟩
  unfold GetConfig readConfig
  simp [h1, h2]

/-- C8 witness: the property instantiated at an empty file system. -/
theorem getConfig_synthesizes_default_witness :
    (fun _ => none : FS) (pathJoin (chars "/work") (chars "config.toml")) = none ∧
    (fun _ => none : FS) (pathJoin (chars "/home/user") (chars ".cangling/config.toml")) = none ∧
    (GetConfig (fun _ => none) (chars "/work") (chars "/home/user") [] =
       (some createConfig,
        [(pathJoin (chars "/work") (chars "config.toml"), tomlMarshal createConfig)]) ∧
     createConfig.server.port = 50051 ∧
     createConfig.server.agentId = [] ∧
     createConfig.server.serverUrl = []) :=
  ⟨rfl, rfl, getConfig_synthesizes_default (fun _ => none) (chars "/work")
    (chars "/home/user") rfl rfl⟩

/-- C6 counterexample: the heartbeat snapshot does not carry live timestamps —
on a concrete registered config and tick environment, the node it POSTs has
both timestamp fields at the constant zero value; the code never sets
`CreateTime`/`OnlineTime`, so the claim's "carries ... timestamps" part fails. -/
theorem report_timestamps_not_live_counterexample :
    (reportNode cfgHeart (chars "1.0.8") envHeart).createTime = 0 ∧
    (reportNode cfgHeart (chars "1.0.8") envHeart).onlineTime = 0 ∧
    ¬((reportNode cfgHeart (chars "1.0.8") envHeart).createTime ≠ 0 ∨
      (reportNode cfgHeart (chars "1.0.8") envHeart).onlineTime ≠ 0) := by
  refine ⟨rfl, rfl, ?_⟩
  intro h
  rcases h with h | h <;> exact h rfl

/-- C6 amended: every heartbeat tick builds a fresh node snapshot keyed by the
persisted agentId, carrying live memory statistics and online=true (the
timestamp fields are left at zero), and POSTs it to the persisted serverUrl
via the same {code, message, data} envelope convention as registration, with
success exactly when the envelope code is 200. -/
theorem report_tick_snapshot_amended (cfg : Config) (version : List Char) (env : ReportEnv)
    (h : cfg.server.serverUrl ≠ []) :
    (ReportAgentToServer cfg version env).1 =
      some (cfg.server.serverUrl, { node := reportNode cfg version env }) ∧
    (reportNode cfg version env).id = cfg.server.agentId ∧
    (reportNode cfg version env).memory = env.memoryGb ∧
    (reportNode cfg version env).memoryFree = env.memoryFreeGb ∧
    (reportNode cfg version env).online = true ∧
    (reportNode cfg version env).createTime = 0 ∧
    (reportNode cfg version env).onlineTime = 0 ∧
    ((ReportAgentToServer cfg version env).2 = .ok () ↔
      ∃ result, env.post = .success result ∧ result.code = 200) := by
  refine ⟨?_, rfl, rfl, rfl, rfl, rfl, rfl, ?_⟩
  · simp [ReportAgentToServer, h]
  · cases hp : env.post with
    | fail e => simp [ReportAgentToServer, h, hp]
    | success result =>
      by_cases hc : result.code = 200 <;> simp [ReportAgentToServer, h, hp, hc]

/-- C6 witness: the amended property instantiated at a registered config and
an accepted tick. -/
theorem report_tick_snapshot_amended_witness :
    cfgHeart.server.serverUrl ≠ [] ∧
    ((ReportAgentToServer cfgHeart (chars "1.0.8") envHeart).1 =
       some (cfgHeart.server.serverUrl,
         { node := reportNode cfgHeart (chars "1.0.8") envHeart }) ∧
     (reportNode cfgHeart (chars "1.0.8") envHeart).id = cfgHeart.server.agentId ∧
     (reportNode cfgHeart (chars "1.0.8") envHeart).memory = envHeart.memoryGb ∧
     (reportNode cfgHeart (chars "1.0.8") envHeart).memoryFree = envHeart.memoryFreeGb ∧
     (reportNode cfgHeart (chars "1.0.8") envHeart).online = true ∧
     (reportNode cfgHeart (chars "1.0.8") envHeart).createTime = 0 ∧
     (reportNode cfgHeart (chars "1.0.8") envHeart).onlineTime = 0 ∧
     ((ReportAgentToServer cfgHeart (chars "1.0.8") envHeart).2 = .ok () ↔
       ∃ result, envHeart.post = .success result ∧ result.code = 200)) :=
  ⟨by decide, report_tick_snapshot_amended cfgHeart (chars "1.0.8") envHeart (by decide)⟩

/-- C10: the register subcommand mutates and persists the config only on a
successful handshake — on any `Register` error the in-memory config is
unchanged and nothing is written; on success the agentId is set to the
returned node id and the serverUrl to the given url, and exactly that updated
record is persisted. -/
theorem registerCmd_persists_only_on_success (cfg : Config) (url token version : List Char)
    (env : RegisterEnv) :
    (∀ e, (Register url token cfg.server.port version env).2 = .error e →
      registerCmd cfg url token version env = (cfg, [])) ∧
    (∀ nodeId, (Register url token cfg.server.port version env).2 = .ok nodeId →
      registerCmd cfg url token version env =
        (⟨{ cfg.server with agentId := nodeId, serverUrl := url }⟩,
         [⟨{ cfg.server with agentId := nodeId, serverUrl := url }⟩])) := by
  constructor
  · intro e he
    simp [registerCmd, he]
  · intro nodeId hn
    simp [registerCmd, hn]

/-- C10 witness: a failing handshake leaves the config untouched with no
write; a successful one persists exactly the updated record. -/
theorem registerCmd_persists_only_on_success_witness :
    registerCmd cfgReg (chars "http://server") (chars "tok") (chars "1.0.8") envRegFail =
      (cfgReg, []) ∧
    registerCmd cfgReg (chars "http://server") (chars "tok") (chars "1.0.8") envRegOk =
      (⟨{ cfgReg.server with agentId := chars "node-42", serverUrl := chars "http://server" }⟩,
       [⟨{ cfgReg.server with agentId := chars "node-42", serverUrl := chars "http://server" }⟩]) :=
  ⟨(registerCmd_persists_only_on_success cfgReg (chars "http://server") (chars "tok")
      (chars "1.0.8") envRegFail).1 .hostnameError rfl,
   (registerCmd_persists_only_on_success cfgReg (chars "http://server") (chars "tok")
      (chars "1.0.8") envRegOk).2 (chars "node-42") rfl⟩

end Cangling
